import Mathlib

/-!
Verification development for the `gluepy.py` marshaling / callback-lifetime
layer: a shallow embedding of its value codec (`object_to_glue_value`,
`translate_glue_value`), of the callback-registry manipulations performed by
`register_endpoint`, `subscribe_context`, `invoke_method` and
`initialize_glue`, and proofs about them.

Modelling conventions:
* Python objects handled by the codec are the inductive `PyObj`
  (None / bool / int / float / str / list / dict).  Python `float` is carried
  as `Rat`: the codec only stores and reloads doubles, never computes with
  them, so an exact carrier is faithful for every representable input.
  A Python `dict` is an association list in insertion order.
* The C `glue_value` struct is `GlueValue` (union payload `GlueData`,
  `type : Int`, `len : Int`); `glue_arg` is `GlueArg`.
* Reading a union slot that is not the variant last written reinterprets raw
  bytes in C.  The `GlueData.get*` accessors return a fixed junk value
  (`false`, `0`, `none`, `[]`) in that case; no theorem below depends on which
  junk value is produced, only on the shape of the result.
* A raised Python exception is `Option.none` / `Except.error`; `decode` of a
  UTF-8 encoding is the identity on the carried `String`.
-/

/-- A Python value of the shapes the marshaling layer handles. -/
inductive PyObj where
  | none : PyObj
  | bool (b : Bool) : PyObj
  | int (i : Int) : PyObj
  | float (q : Rat) : PyObj
  | str (s : String) : PyObj
  | list (xs : List PyObj) : PyObj
  | dict (es : List (String × PyObj)) : PyObj

/-- Python truthiness test `not py_object` (`object_to_glue_value` line 363):
`None`, `False`, `0`, `0.0`, `""`, `[]`, `{}` are falsy. -/
def PyObj.falsy : PyObj → Bool
  | .none => true
  | .bool b => !b
  | .int i => i == 0
  | .float q => q == 0
  | .str s => s == ""
  | .list xs => xs.isEmpty
  | .dict es => es.isEmpty

/-- `isinstance(x, bool)`. -/
def PyObj.isinstBool : PyObj → Bool
  | .bool _ => true
  | _ => false

/-- `isinstance(x, int)`: in Python `bool` is a subclass of `int`, so both
booleans and integers satisfy it. -/
def PyObj.isinstInt : PyObj → Bool
  | .bool _ => true
  | .int _ => true
  | _ => false

/-- `isinstance(x, float)`. -/
def PyObj.isinstFloat : PyObj → Bool
  | .float _ => true
  | _ => false

/-- `isinstance(x, str)`. -/
def PyObj.isinstStr : PyObj → Bool
  | .str _ => true
  | _ => false

/-- Conversion applied by `(c_bool * n)(*py_object)` to each element of an
all-bool list. -/
def PyObj.toCBool : PyObj → Bool
  | .bool b => b
  | _ => false

/-- Conversion applied by `(c_longlong * n)(*py_object)` to each element of a
list passing the `isinstance(x, int)` check: `True ↦ 1`, `False ↦ 0`,
an int is stored as is. -/
def PyObj.toCLonglong : PyObj → Int
  | .bool b => if b then 1 else 0
  | .int i => i
  | _ => 0

/-- Conversion applied by `(c_double * n)(*py_object)`. -/
def PyObj.toCDouble : PyObj → Rat
  | .float q => q
  | _ => 0

/-- Conversion applied by `s.encode("utf-8")` on an all-str list element. -/
def PyObj.toCString : PyObj → String
  | .str s => s
  | _ => ""

-- The `glue_type` discriminant values (class `GlueType` in the source).
namespace GlueType

def glue_none : Int := 0
def glue_bool : Int := 1
def glue_int : Int := 2
def glue_long : Int := 3
def glue_double : Int := 4
def glue_string : Int := 5
def glue_datetime : Int := 6
def glue_tuple : Int := 7
def glue_composite : Int := 8
def glue_composite_array : Int := 9

end GlueType

-- The `GlueState` constants used by `initialize_glue`.
namespace GlueState

def NONE : Int := 0
def CONNECTING : Int := 1
def CONNECTED : Int := 2
def INITIALIZED : Int := 3
def DISCONNECTED : Int := 4

end GlueState

mutual

/-- The `GlueValueUnion` ctypes union.  `unset` is the zero-initialised union
of a fresh `GlueValue()` (every pointer slot reads as NULL).  The `composite`
and `tuple` void-pointer slots carry `Option` payloads, `none` standing for a
NULL pointer. -/
inductive GlueData where
  | unset : GlueData
  | b (v : Bool) : GlueData
  | i (v : Int) : GlueData
  | l (v : Int) : GlueData
  | d (v : Rat) : GlueData
  | s (v : Option String) : GlueData
  | bb (v : List Bool) : GlueData
  | ii (v : List Int) : GlueData
  | ll (v : List Int) : GlueData
  | dd (v : List Rat) : GlueData
  | ss (v : List (Option String)) : GlueData
  | composite (v : Option (List GlueArg)) : GlueData
  | tup (v : Option (List GlueValue)) : GlueData

/-- The `GlueValue` ctypes struct: union payload, `type` discriminant and
`len` (`-1` for scalars). -/
inductive GlueValue where
  | mk (data : GlueData) (type : Int) (len : Int) : GlueValue

/-- The `GlueArg` ctypes struct: an optional (NULLable) name and a value. -/
inductive GlueArg where
  | mk (name : Option String) (value : GlueValue) : GlueArg

end

def GlueValue.data : GlueValue → GlueData
  | .mk d _ _ => d

def GlueValue.type : GlueValue → Int
  | .mk _ t _ => t

def GlueValue.len : GlueValue → Int
  | .mk _ _ l => l

def GlueArg.name : GlueArg → Option String
  | .mk n _ => n

def GlueArg.value : GlueArg → GlueValue
  | .mk _ v => v

/-- Union read `data.b`; a cross-variant read yields junk (see header). -/
def GlueData.getB : GlueData → Bool
  | .b v => v
  | _ => false

/-- Union read `data.i`. -/
def GlueData.getI : GlueData → Int
  | .i v => v
  | _ => 0

/-- Union read `data.l`. -/
def GlueData.getL : GlueData → Int
  | .l v => v
  | _ => 0

/-- Union read `data.d`. -/
def GlueData.getD : GlueData → Rat
  | .d v => v
  | _ => 0

/-- Union read `data.s` (`none` = NULL `c_char_p`; the zero-initialised
union reads as NULL). -/
def GlueData.getS : GlueData → Option String
  | .s v => v
  | .unset => none
  | _ => none

/-- Union read `data.bb` (array extent as stored). -/
def GlueData.getBB : GlueData → List Bool
  | .bb v => v
  | _ => []

/-- Union read `data.ii`. -/
def GlueData.getII : GlueData → List Int
  | .ii v => v
  | _ => []

/-- Union read `data.ll`. -/
def GlueData.getLL : GlueData → List Int
  | .ll v => v
  | _ => []

/-- Union read `data.dd`. -/
def GlueData.getDD : GlueData → List Rat
  | .dd v => v
  | _ => []

/-- Union read `data.ss`. -/
def GlueData.getSS : GlueData → List (Option String)
  | .ss v => v
  | _ => []

mutual

/-- `object_to_glue_value` (gluepy.py lines 352–435): encodes a Python value
into a `glue_value`.  The falsy check comes first; among scalars, `bool` is
tested before `int`; a list is classified by the four `all(isinstance(...))`
checks in source order, and only a list failing all four becomes a `tuple`.
The dedicated list-of-dict branch of the source (line 422) is dead code — the
generic `isinstance(py_object, list)` branch (line 387) catches every list —
and is therefore not a reachable branch of this function either.
The source performs the falsy test once, before the type dispatch; here it is
distributed into each constructor branch (`PyObj.falsy` is defined by the
same case split, so the two forms agree definitionally). -/
def object_to_glue_value : PyObj → GlueValue
  | .none => .mk .unset GlueType.glue_none (-1)
  | .bool b =>
    if PyObj.falsy (.bool b) then .mk .unset GlueType.glue_none (-1)
    else .mk (.b b) GlueType.glue_bool (-1)
  | .int i =>
    if PyObj.falsy (.int i) then .mk .unset GlueType.glue_none (-1)
    else .mk (.l i) GlueType.glue_long (-1)
  | .float q =>
    if PyObj.falsy (.float q) then .mk .unset GlueType.glue_none (-1)
    else .mk (.d q) GlueType.glue_double (-1)
  | .str s =>
    if PyObj.falsy (.str s) then .mk .unset GlueType.glue_none (-1)
    else .mk (.s (some s)) GlueType.glue_string (-1)
  | .list xs =>
    if PyObj.falsy (.list xs) then .mk .unset GlueType.glue_none (-1)
    else if xs.all PyObj.isinstBool then
      .mk (.bb (xs.map PyObj.toCBool)) GlueType.glue_bool (xs.length : Int)
    else if xs.all PyObj.isinstInt then
      .mk (.ll (xs.map PyObj.toCLonglong)) GlueType.glue_long (xs.length : Int)
    else if xs.all PyObj.isinstFloat then
      .mk (.dd (xs.map PyObj.toCDouble)) GlueType.glue_double (xs.length : Int)
    else if xs.all PyObj.isinstStr then
      .mk (.ss (xs.map (fun x => some x.toCString))) GlueType.glue_string (xs.length : Int)
    else
      .mk (.tup (some (encodeListItems xs))) GlueType.glue_tuple (xs.length : Int)
  | .dict es =>
    if PyObj.falsy (.dict es) then .mk .unset GlueType.glue_none (-1)
    else
      .mk (.composite (some (encodeDictItems es))) GlueType.glue_composite (es.length : Int)

/-- The recursive per-element encoding of the mixed-list (`tuple`) branch. -/
def encodeListItems : List PyObj → List GlueValue
  | [] => []
  | x :: rest => object_to_glue_value x :: encodeListItems rest

/-- The per-entry encoding of the dict (`composite`) branch: each item gets
`name = key.encode("utf-8")` and the recursively encoded value. -/
def encodeDictItems : List (String × PyObj) → List GlueArg
  | [] => []
  | (k, v) :: rest => .mk (some k) (object_to_glue_value v) :: encodeDictItems rest

end

/-- Python `dict` insertion: an existing key keeps its position and gets the
new value; a new key is appended. -/
def pyDictInsert (m : List (String × PyObj)) (k : String) (v : PyObj) :
    List (String × PyObj) :=
  match m with
  | [] => [(k, v)]
  | (k0, v0) :: rest =>
    if k0 == k then (k0, v) :: rest else (k0, v0) :: pyDictInsert rest k v

mutual

/-- `translate_glue_value` (gluepy.py lines 271–333): decodes a `glue_value`
into a Python value; `Option.none` models a raised exception (the only raise
site is `c.name.decode` on a NULL composite-arg name).  The branch order is
the source's `elif` chain: the five scalar branches test the discriminant
alone, so they also capture every array-typed value, and the five array
branches that follow (lines 291–301, conditions `type == ... and len >= 0`)
are unreachable. -/
def translate_glue_value : GlueValue → Option PyObj
  | .mk data ty len =>
    if ty = GlueType.glue_bool then some (.bool data.getB)
    else if ty = GlueType.glue_int then some (.int data.getI)
    else if ty = GlueType.glue_long then some (.int data.getL)
    else if ty = GlueType.glue_double then some (.float data.getD)
    else if ty = GlueType.glue_string then
      some (match data.getS with
            | some s => PyObj.str s
            | Option.none => PyObj.none)
    else if ty = GlueType.glue_bool ∧ 0 ≤ len then
      some (.list ((data.getBB.take len.toNat).map PyObj.bool))
    else if ty = GlueType.glue_int ∧ 0 ≤ len then
      some (.list ((data.getII.take len.toNat).map PyObj.int))
    else if ty = GlueType.glue_long ∧ 0 ≤ len then
      some (.list ((data.getLL.take len.toNat).map PyObj.int))
    else if ty = GlueType.glue_double ∧ 0 ≤ len then
      some (.list ((data.getDD.take len.toNat).map PyObj.float))
    else if ty = GlueType.glue_string ∧ 0 ≤ len then
      some (.list ((data.getSS.take len.toNat).map (fun os =>
        match os with
        | some t => PyObj.str t
        | Option.none => PyObj.none)))
    else if ty = GlueType.glue_composite then
      match data with
      | .composite (some args) => do
          let entries ← translateCompositeItems len.toNat [] args
          pure (PyObj.dict entries)
      | _ => some (PyObj.dict [])
    else if ty = GlueType.glue_tuple then
      match data with
      | .tup (some vs) => do
          let items ← translateTupleItems len.toNat vs
          pure (PyObj.list items)
      | _ => some PyObj.none
    else if ty = GlueType.glue_composite_array then
      match data with
      | .composite (some args) => do
          let items ← translateCompositeArrayItems len.toNat args
          pure (PyObj.list items)
      | _ => some PyObj.none
    else some PyObj.none

/-- The dict comprehension of the `composite` branch over `composite[:len]`:
left-to-right, each entry decoding its (NULLable) name and value and being
inserted with Python-dict semantics. -/
def translateCompositeItems :
    Nat → List (String × PyObj) → List GlueArg → Option (List (String × PyObj))
  | _, acc, [] => some acc
  | 0, acc, _ :: _ => some acc
  | n + 1, acc, .mk nm v :: rest => do
    let key ← nm
    let x ← translate_glue_value v
    translateCompositeItems n (pyDictInsert acc key x) rest

/-- The list comprehension of the `tuple` branch over `tuple_values[:len]`. -/
def translateTupleItems : Nat → List GlueValue → Option (List PyObj)
  | _, [] => some []
  | 0, _ :: _ => some []
  | n + 1, v :: rest => do
    let x ← translate_glue_value v
    let xs ← translateTupleItems n rest
    pure (x :: xs)

/-- The list comprehension of the `composite_array` branch: element values
decoded in order, names discarded. -/
def translateCompositeArrayItems : Nat → List GlueArg → Option (List PyObj)
  | _, [] => some []
  | 0, _ :: _ => some []
  | n + 1, .mk _ v :: rest => do
    let x ← translate_glue_value v
    let xs ← translateCompositeArrayItems n rest
    pure (x :: xs)

end

/-!
## Callback registry and invocation facade

`gluepy.py` keeps two module-level lists of trampoline objects:
`active_callbacks` (with a `callback_lock` used only by `invoke_method`) and
`context_callback_references` (no lock).  Both are modeled as lists of
trampoline identities (`Nat`, standing for Python object identity) in
insertion order.
-/

abbrev CallbackId := Nat

/-- Python `list.remove(x)`: removes the first occurrence of `x`, raising
`ValueError` when `x` is absent. -/
def pyListRemove (l : List CallbackId) (x : CallbackId) :
    Except String (List CallbackId) :=
  if x ∈ l then .ok (l.erase x) else .error "ValueError"

/-- `register_endpoint` (lines 539–577), registry effect: after the native
`glue_register_endpoint` call, the trampoline is appended to
`active_callbacks` (no lock is taken). -/
def register_endpoint_register (active : List CallbackId) (id : CallbackId) :
    List CallbackId :=
  active ++ [id]

/-- The closure returned by `register_endpoint` (lines 574–577):
`(active_callbacks.remove(cb), glue_destroy_resource(ptr))` — the removal is
evaluated first and raises `ValueError` when the trampoline is no longer in
the list. -/
def register_endpoint_unregister (active : List CallbackId) (id : CallbackId) :
    Except String (List CallbackId) :=
  pyListRemove active id

/-- `subscribe_context` (lines 502–536), registry effect: the trampoline is
appended to `context_callback_references` (no lock exists for this list). -/
def subscribe_context_subscribe (refs : List CallbackId) (id : CallbackId) :
    List CallbackId :=
  refs ++ [id]

/-- The closure returned by `subscribe_context` (lines 533–536):
`(glue_destroy_resource(subscription), context_callback_references.remove(cxt_callback))`
— the native resource is destroyed, then the removal raises `ValueError`
when the trampoline is no longer in the list. -/
def subscribe_context_unsubscribe (refs : List CallbackId) (id : CallbackId) :
    Except String (List CallbackId) :=
  pyListRemove refs id

/-- The two observable steps of `invoke_method` before returning. -/
inductive InvokeEvent where
  | callbackRegistered (id : CallbackId) : InvokeEvent
  | nativeInvokeIssued (method : String) : InvokeEvent
  deriving DecidableEq

/-- `invoke_method` (lines 584–633) up to its native call: when a result
callback is supplied, the one-shot trampoline is appended to
`active_callbacks` under `callback_lock` and only then is `glue_invoke`
issued; without a callback a NULL function pointer is passed and the registry
is untouched.  Returns the registry afterwards and the ordered event list. -/
def invoke_method_events (active : List CallbackId) (id : CallbackId)
    (method : String) (hasResultCallback : Bool) :
    List CallbackId × List InvokeEvent :=
  if hasResultCallback then
    (active ++ [id], [.callbackRegistered id, .nativeInvokeIssued method])
  else
    (active, [.nativeInvokeIssued method])

/-- `result_handler` inside `invoke_method` (lines 597–615), registry effect:
the user `result_callback` runs first; only after it returns normally does the
guarded removal (`with callback_lock: if inst in active_callbacks: remove`)
run.  There is no `try`/`finally`, so when the user callback raises, the
handler is abandoned before the removal.  Returns the registry afterwards and
whether an exception escaped the handler. -/
def result_handler_run (active : List CallbackId) (id : CallbackId)
    (callbackRaises : Bool) : List CallbackId × Bool :=
  if callbackRaises then (active, true)
  else ((if id ∈ active then active.erase id else active), false)

/-- Decoding of the incoming payload arguments performed by
`endpoint_callback` inside `register_endpoint` (lines 554–559): each of the
first `args_len` args becomes the singleton dict
`{arg.name.decode("utf-8"): translate_glue_value(arg.value)}`; a NULL name
raises (`AttributeError` on `None.decode`). -/
def endpoint_args : Nat → List GlueArg → Option (List (List (String × PyObj)))
  | _, [] => some []
  | 0, _ :: _ => some []
  | n + 1, .mk nm v :: rest => do
    let k ← nm
    let x ← translate_glue_value v
    let xs ← endpoint_args n rest
    pure ([(k, x)] :: xs)

/-- `endpoint_callback` (lines 549–567): decodes the payload (a NULL payload
pointer gives `args = None`), builds the result pusher, and calls the
user-supplied `argument_handler` with **no** surrounding `try`/`except`:
whatever the handler raises is the outcome of the trampoline body. -/
def endpoint_callback (payload : Option (List GlueArg × Int))
    (argument_handler : Option (List (List (String × PyObj))) → Except String Unit) :
    Except String Unit := do
  let args ← match payload with
    | some (pargs, plen) =>
      match endpoint_args plen.toNat pargs with
      | some a => Except.ok (some a)
      | Option.none => Except.error "AttributeError"
    | Option.none => Except.ok Option.none
  argument_handler args

/-!
## Initialization handshake (`initialize_glue`, lines 672–700)

The asyncio future is modeled by its resolved value: each native state
callback forwards `(state, message)` to `on_state_change` and schedules
`set_result True` on `INITIALIZED`, `set_result False` on `DISCONNECTED` and
nothing otherwise; the future keeps the first scheduled result.  A non-zero
immediate return code from `glue_init` sets the result `False` directly.
-/

/-- The resolution scheduled by one `glue_init_callback` invocation. -/
def glue_init_callback_resolution (state : Int) : Option Bool :=
  if state = GlueState.INITIALIZED then some true
  else if state = GlueState.DISCONNECTED then some false
  else none

/-- One `glue_init_callback` invocation: the forwarded `on_state_change`
notification (sent for every state, terminal or not) and the scheduled
resolution. -/
def glue_init_callback (state : Int) (message : String) :
    (Int × String) × Option Bool :=
  ((state, message), glue_init_callback_resolution state)

/-- The value the awaitable returned by `initialize_glue` resolves to, given
the immediate `glue_init` return code and the sequence of callback states
(`none` = still pending). -/
def initialize_glue_result (retCode : Int) (states : List Int) : Option Bool :=
  if retCode ≠ 0 then some false
  else states.findSome? glue_init_callback_resolution

/-!
## Registry mutation sites (for the locking discipline)

Every line of `gluepy.py` that mutates one of the two trampoline lists,
with the enclosing function and whether the mutation is inside
`with callback_lock`.
-/

/-- The two module-level trampoline stores. -/
inductive RegistryStore where
  | activeCallbacks : RegistryStore
  | contextCallbackReferences : RegistryStore
  deriving DecidableEq

/-- One source line that mutates a trampoline store. -/
structure RegistryMutationSite where
  fn : String
  line : Nat
  store : RegistryStore
  isInsert : Bool
  underLock : Bool
  deriving DecidableEq

/-- All mutations of the two trampoline lists in `gluepy.py`, by source
line.  Only the two mutations inside `invoke_method` take `callback_lock`. -/
def registry_mutation_sites : List RegistryMutationSite :=
  [⟨"subscribe_context", 524, .contextCallbackReferences, true, false⟩,
   ⟨"subscribe_context.unsubscribe_closure", 535, .contextCallbackReferences, false, false⟩,
   ⟨"register_endpoint", 573, .activeCallbacks, true, false⟩,
   ⟨"register_endpoint.unregister_closure", 575, .activeCallbacks, false, false⟩,
   ⟨"invoke_method", 622, .activeCallbacks, true, true⟩,
   ⟨"invoke_method.result_handler", 615, .activeCallbacks, false, true⟩,
   ⟨"subscribe_endpoint_status", 644, .activeCallbacks, true, false⟩,
   ⟨"subscribe_endpoint_status.unsubscribe_closure", 647, .activeCallbacks, false, false⟩,
   ⟨"initialize_glue", 689, .activeCallbacks, true, false⟩,
   ⟨"initialize_glue.cleanup", 692, .activeCallbacks, false, false⟩]

/-!
## The round-trip domain

`decode ∘ encode = id` does not hold for every non-falsy value (homogeneous
scalar lists are destroyed by the shadowed decoder branches, see `C1`/`C2`
below), so the precise domain is captured by the recursive predicate
`roundtrippable`: non-falsy scalars within the representable range of their C
slot, mixed-type lists of such values, and dicts with distinct NUL-free keys.
-/

/-- A Python int representable by the `c_longlong` union slot (an assignment
outside this range raises `OverflowError` in ctypes). -/
def inCLonglongRange (i : Int) : Bool :=
  decide (-(2 ^ 63) ≤ i ∧ i < 2 ^ 63)

/-- A string whose UTF-8 bytes survive a `c_char_p` store/load (no embedded
NUL character, at which a C string read would truncate). -/
def nulFreeString (s : String) : Bool :=
  decide (Char.ofNat 0 ∉ s.toList)

/-- A list that fails all four `all(isinstance(...))` checks of the encoder
and therefore takes the `tuple` branch. -/
def isMixedList (xs : List PyObj) : Bool :=
  !(xs.all PyObj.isinstBool) && !(xs.all PyObj.isinstInt) &&
    !(xs.all PyObj.isinstFloat) && !(xs.all PyObj.isinstStr)

mutual

/-- The values for which encode-then-decode is the identity: non-falsy
scalars (ints in `c_longlong` range, strings NUL-free), mixed-type lists of
such values, and dicts with distinct NUL-free keys and such values.
Homogeneous scalar lists are deliberately outside this predicate. -/
def roundtrippable : PyObj → Bool
  | .none => false
  | .bool b => b
  | .int i => i != 0 && inCLonglongRange i
  | .float q => q != 0
  | .str s => s != "" && nulFreeString s
  | .list xs => !xs.isEmpty && isMixedList xs && roundtrippableList xs
  | .dict es =>
    !es.isEmpty && decide ((es.map Prod.fst).Nodup) && roundtrippableDict es

def roundtrippableList : List PyObj → Bool
  | [] => true
  | x :: rest => roundtrippable x && roundtrippableList rest

def roundtrippableDict : List (String × PyObj) → Bool
  | [] => true
  | (k, v) :: rest =>
    nulFreeString k && roundtrippable v && roundtrippableDict rest

end

/-!
## Helper lemmas
-/

lemma roundtrippableList_mem {xs : List PyObj}
    (h : roundtrippableList xs = true) : ∀ x ∈ xs, roundtrippable x = true := by
  induction xs with
  | nil => intro x hx; cases hx
  | cons a rest ih =>
    rw [roundtrippableList] at h
    intro x hx
    rcases List.mem_cons.mp hx with rfl | hx
    · exact (Bool.and_eq_true_iff.mp h).1
    · exact ih (Bool.and_eq_true_iff.mp h).2 x hx

lemma roundtrippableDict_mem {es : List (String × PyObj)}
    (h : roundtrippableDict es = true) :
    ∀ p ∈ es, roundtrippable p.2 = true := by
  induction es with
  | nil => intro p hp; cases hp
  | cons a rest ih =>
    obtain ⟨k, v⟩ := a
    rw [roundtrippableDict] at h
    intro p hp
    rcases List.mem_cons.mp hp with rfl | hp
    · exact (Bool.and_eq_true_iff.mp (Bool.and_eq_true_iff.mp h).1).2
    · exact ih (Bool.and_eq_true_iff.mp h).2 p hp

lemma pyDictInsert_eq_append (m : List (String × PyObj)) (k : String)
    (v : PyObj) (h : k ∉ m.map Prod.fst) : pyDictInsert m k v = m ++ [(k, v)] := by
  induction m with
  | nil => rfl
  | cons p rest ih =>
    obtain ⟨k0, v0⟩ := p
    simp only [List.map_cons, List.mem_cons, not_or] at h
    rw [pyDictInsert]
    simp only [beq_iff_eq]
    rw [if_neg (fun hh => h.1 hh.symm), ih h.2]
    rfl

attribute [simp] GlueType.glue_none GlueType.glue_bool GlueType.glue_int
  GlueType.glue_long GlueType.glue_double GlueType.glue_string
  GlueType.glue_datetime GlueType.glue_tuple GlueType.glue_composite
  GlueType.glue_composite_array GlueState.NONE GlueState.CONNECTING
  GlueState.CONNECTED GlueState.INITIALIZED GlueState.DISCONNECTED

attribute [simp] GlueData.getB GlueData.getI GlueData.getL GlueData.getD
  GlueData.getS GlueData.getBB GlueData.getII GlueData.getLL GlueData.getDD
  GlueData.getSS GlueValue.data GlueValue.type GlueValue.len GlueArg.name
  GlueArg.value PyObj.isinstBool PyObj.isinstInt PyObj.isinstFloat
  PyObj.isinstStr PyObj.toCBool PyObj.toCLonglong PyObj.toCDouble
  PyObj.toCString

lemma translateTupleItems_encodeListItems (xs : List PyObj)
    (IH : ∀ x ∈ xs, translate_glue_value (object_to_glue_value x) = some x) :
    translateTupleItems xs.length (encodeListItems xs) = some xs := by
  induction xs with
  | nil => rfl
  | cons x rest ih =>
    simp only [encodeListItems, List.length_cons, translateTupleItems,
      IH x (List.mem_cons_self x rest), Option.some_bind,
      ih (fun y hy => IH y (List.mem_cons_of_mem _ hy))]
    rfl

lemma translateCompositeItems_encodeDictItems :
    ∀ (es acc : List (String × PyObj)),
    (∀ p ∈ es, translate_glue_value (object_to_glue_value p.2) = some p.2) →
    ((acc ++ es).map Prod.fst).Nodup →
    translateCompositeItems es.length acc (encodeDictItems es) = some (acc ++ es) := by
  intro es
  induction es with
  | nil => intro acc _ _; simp [encodeDictItems, translateCompositeItems]
  | cons p rest ih =>
    intro acc IH hnd
    obtain ⟨k, v⟩ := p
    have hnd' := hnd
    rw [List.map_append] at hnd'
    have hdisj := (List.nodup_append.mp hnd').2.2
    have hk : k ∉ acc.map Prod.fst := fun hmem => hdisj hmem (by simp)
    have hins := pyDictInsert_eq_append acc k v hk
    have hrest := ih (acc ++ [(k, v)])
      (fun q hq => IH q (List.mem_cons_of_mem _ hq)) (by simpa using hnd)
    simp only [encodeDictItems, List.length_cons, translateCompositeItems,
      Option.some_bind, IH ⟨k, v⟩ (List.mem_cons_self _ _)]
    show translateCompositeItems rest.length (pyDictInsert acc k v)
      (encodeDictItems rest) = some (acc ++ (k, v) :: rest)
    rw [hins, hrest]
    simp

lemma roundtrip_sized : ∀ (n : Nat) (v : PyObj), sizeOf v ≤ n →
    roundtrippable v = true →
    translate_glue_value (object_to_glue_value v) = some v := by
  intro n
  induction n with
  | zero =>
    intro v hv
    exact absurd hv (by cases v <;> simp)
  | succ n ih =>
    intro v hv hrt
    match v with
    | .bool b =>
      rw [roundtrippable] at hrt
      subst hrt
      rfl
    | .int i =>
      rw [roundtrippable] at hrt
      have h1 : ¬i = 0 := by
        simpa using (Bool.and_eq_true_iff.mp hrt).1
      simp [object_to_glue_value, PyObj.falsy, translate_glue_value, h1]
    | .float q =>
      rw [roundtrippable] at hrt
      have h1 : ¬q = 0 := by simpa using hrt
      simp [object_to_glue_value, PyObj.falsy, translate_glue_value, h1]
    | .str s =>
      rw [roundtrippable] at hrt
      have h1 : ¬s = "" := by
        simpa using (Bool.and_eq_true_iff.mp hrt).1
      simp [object_to_glue_value, PyObj.falsy, translate_glue_value, h1]
    | .list xs =>
      rw [roundtrippable] at hrt
      obtain ⟨h2, hrl⟩ := Bool.and_eq_true_iff.mp hrt
      obtain ⟨hne, hmix⟩ := Bool.and_eq_true_iff.mp h2
      rw [isMixedList] at hmix
      obtain ⟨h3, hs⟩ := Bool.and_eq_true_iff.mp hmix
      obtain ⟨h4, hf⟩ := Bool.and_eq_true_iff.mp h3
      obtain ⟨hb, hi⟩ := Bool.and_eq_true_iff.mp h4
      have hb' : xs.all PyObj.isinstBool = false := by simpa using hb
      have hi' : xs.all PyObj.isinstInt = false := by simpa using hi
      have hf' : xs.all PyObj.isinstFloat = false := by simpa using hf
      have hs' : xs.all PyObj.isinstStr = false := by simpa using hs
      have hne' : xs.isEmpty = false := by simpa using hne
      have hsz : sizeOf xs ≤ n := by
        have := hv
        simp only [PyObj.list.sizeOf_spec] at this
        omega
      have IH : ∀ x ∈ xs, translate_glue_value (object_to_glue_value x) = some x := by
        intro x hx
        exact ih x (by have := List.sizeOf_lt_of_mem hx; omega)
          (roundtrippableList_mem hrl x hx)
      have henc : object_to_glue_value (.list xs) =
          .mk (.tup (some (encodeListItems xs))) GlueType.glue_tuple (xs.length : Int) := by
        simp only [object_to_glue_value, PyObj.falsy, hne', hb', hi', hf', hs',
          Bool.false_eq_true, if_false]
      rw [henc]
      simp only [translate_glue_value, GlueType.glue_tuple]
      norm_num
      rw [translateTupleItems_encodeListItems xs IH]
      rfl
    | .dict es =>
      rw [roundtrippable] at hrt
      obtain ⟨h2, hrd⟩ := Bool.and_eq_true_iff.mp hrt
      obtain ⟨hne, hndb⟩ := Bool.and_eq_true_iff.mp h2
      have hne' : es.isEmpty = false := by simpa using hne
      have hnd : (es.map Prod.fst).Nodup := of_decide_eq_true hndb
      have hsz : sizeOf es ≤ n := by
        have := hv
        simp only [PyObj.dict.sizeOf_spec] at this
        omega
      have IH : ∀ p ∈ es, translate_glue_value (object_to_glue_value p.2) = some p.2 := by
        intro p hp
        have h5 := List.sizeOf_lt_of_mem hp
        obtain ⟨k, w⟩ := p
        exact ih w (by simp only [Prod.mk.sizeOf_spec] at h5; omega)
          (roundtrippableDict_mem hrd ⟨k, w⟩ hp)
      have henc : object_to_glue_value (.dict es) =
          .mk (.composite (some (encodeDictItems es))) GlueType.glue_composite (es.length : Int) := by
        simp only [object_to_glue_value, PyObj.falsy, hne', Bool.false_eq_true, if_false]
      rw [henc]
      simp only [translate_glue_value, GlueType.glue_composite]
      norm_num
      rw [translateCompositeItems_encodeDictItems es []
        (by simpa using IH) (by simpa using hnd)]
      rfl
    | .none =>
      rw [roundtrippable] at hrt
      cases hrt

lemma findSome?_append_of_forall_none {α β : Type} (f : α → Option β)
    (l1 l2 : List α) (h : ∀ x ∈ l1, f x = none) :
    (l1 ++ l2).findSome? f = l2.findSome? f := by
  induction l1 with
  | nil => rfl
  | cons a rest ih =>
    rw [List.cons_append, List.findSome?_cons, h a (List.mem_cons_self a rest)]
    exact ih (fun x hx => h x (List.mem_cons_of_mem _ hx))

/-!
## Claims
-/

/-- C1, counterexample: the non-falsy homogeneous scalar list `[1, 2]` does
not survive `decode ∘ encode` — the encoder produces an int64 array, but the
decoder's scalar `glue_long` branch shadows its array branch, so the result is
a scalar, not the list back. -/
theorem C1_counterexample_int_list :
    (PyObj.list [PyObj.int 1, PyObj.int 2]).falsy = false ∧
    translate_glue_value (object_to_glue_value (PyObj.list [PyObj.int 1, PyObj.int 2])) ≠
      some (PyObj.list [PyObj.int 1, PyObj.int 2]) := by
  refine ⟨rfl, fun h => ?_⟩
  rw [show translate_glue_value (object_to_glue_value (PyObj.list [PyObj.int 1, PyObj.int 2])) =
    some (PyObj.int 0) from rfl] at h
  simp at h

/-- C1, amended: `translate_glue_value (object_to_glue_value v) = v` holds
for every non-falsy scalar (bool, in-range int, float, NUL-free text),
mixed-type list, map with distinct NUL-free text keys, and list of maps
(a list of maps fails all four homogeneity checks and travels as a `tuple`),
with the components recursively of the same shapes — but **not** for
homogeneous scalar lists, which are destroyed by the shadowed decoder
branches. -/
theorem C1_roundtrip_on_roundtrippable (v : PyObj)
    (h : roundtrippable v = true) :
    translate_glue_value (object_to_glue_value v) = some v :=
  roundtrip_sized (sizeOf v) v le_rfl h

/-- C1, witness for the amended round-trip: a dict holding a text scalar, a
mixed list, and a nested list-of-dicts. -/
theorem C1_roundtrip_on_roundtrippable_witness :
    roundtrippable (PyObj.dict [("sym", PyObj.str "AAPL"),
      ("mix", PyObj.list [PyObj.int 42, PyObj.str "x", PyObj.bool true]),
      ("rows", PyObj.list [PyObj.dict [("p", PyObj.float 7)],
        PyObj.int 1])]) = true ∧
    translate_glue_value (object_to_glue_value (PyObj.dict [("sym", PyObj.str "AAPL"),
      ("mix", PyObj.list [PyObj.int 42, PyObj.str "x", PyObj.bool true]),
      ("rows", PyObj.list [PyObj.dict [("p", PyObj.float 7)],
        PyObj.int 1])])) =
      some (PyObj.dict [("sym", PyObj.str "AAPL"),
      ("mix", PyObj.list [PyObj.int 42, PyObj.str "x", PyObj.bool true]),
      ("rows", PyObj.list [PyObj.dict [("p", PyObj.float 7)],
        PyObj.int 1])]) :=
  ⟨rfl, C1_roundtrip_on_roundtrippable _ rfl⟩

/-- C2: a wire value with a scalar discriminant and `length ≥ 0` does NOT
decode to a list of its array elements: the scalar `elif` branch shadows the
array branch, so the int64 array `{type: glue_long, len: 2, data.ll → [1,2]}`
decodes to the scalar union read `data.l`, never to any list. -/
theorem C2_array_branch_shadowed :
    (∀ xs : List PyObj,
      translate_glue_value (.mk (.ll [1, 2]) GlueType.glue_long 2) ≠
        some (PyObj.list xs)) ∧
    translate_glue_value (.mk (.ll [1, 2]) GlueType.glue_long 2) =
      some (PyObj.int ((GlueData.ll [1, 2]).getL)) := by
  refine ⟨fun xs h => ?_, rfl⟩
  rw [show translate_glue_value (.mk (.ll [1, 2]) GlueType.glue_long 2) =
    some (PyObj.int 0) from rfl] at h
  simp at h

/-- C3, counterexample: an error raised by the user handler is not caught at
the trampoline boundary — it escapes the `endpoint_callback` body (and a
raising result callback likewise escapes `result_handler`). -/
theorem C3_counterexample_error_escapes :
    endpoint_callback Option.none (fun _ => .error "boom") = .error "boom" ∧
    (result_handler_run [] 0 true).2 = true :=
  ⟨rfl, rfl⟩

/-- C3, amended: the trampoline bodies contain no `try`/`except` and no
logging: an exception raised by the user-supplied handler propagates out of
the Python callback body unchanged (any containment happens only in the
foreign-function runtime, outside this code). -/
theorem C3_amended_handler_error_propagates
    (h : Option (List (List (String × PyObj))) → Except String Unit)
    (e : String) (he : h Option.none = .error e) :
    endpoint_callback Option.none h = .error e ∧
    (∀ active id, result_handler_run active id true = (active, true)) := by
  constructor
  · rw [show endpoint_callback Option.none h = h Option.none from rfl, he]
  · intro active id
    rfl

/-- C3, witness: a handler raising `"boom"` on a NULL payload. -/
theorem C3_amended_handler_error_propagates_witness :
    endpoint_callback Option.none (fun _ => Except.error "boom") = .error "boom" ∧
    (∀ active id, result_handler_run active id true = (active, true)) :=
  C3_amended_handler_error_propagates (fun _ => Except.error "boom") "boom" rfl

/-- C4, counterexample: the one-shot result trampoline is registered before
the native call, but when the user result handler raises, the removal after
the handler never runs and the registration stays behind. -/
theorem C4_counterexample_raising_handler_leaks :
    (invoke_method_events [] 7 "Sum" true).1 = [7] ∧
    result_handler_run [7] 7 true = ([7], true) ∧
    7 ∈ (result_handler_run [7] 7 true).1 := by
  refine ⟨rfl, rfl, ?_⟩
  rw [show (result_handler_run [7] 7 true).1 = [7] from rfl]
  exact List.mem_cons_self 7 []

/-- C4, amended: with a result callback, `invoke_method` appends the one-shot
trampoline to `active_callbacks` (under the lock) strictly before issuing the
native call, and a result handler that returns normally removes it; but a
handler that raises skips the removal and leaks the registration. -/
theorem C4_amended_registration_lifecycle (active a : List CallbackId)
    (id : CallbackId) (m : String) (hmem : id ∈ a) (hc : a.count id = 1) :
    (invoke_method_events active id m true).2 =
      [.callbackRegistered id, .nativeInvokeIssued m] ∧
    (invoke_method_events active id m true).1 = active ++ [id] ∧
    result_handler_run a id false = (a.erase id, false) ∧
    id ∉ (result_handler_run a id false).1 ∧
    result_handler_run a id true = (a, true) := by
  have herase : id ∉ a.erase id := by
    have h0 : (a.erase id).count id = 0 := by
      rw [List.count_erase_self]
      omega
    exact List.count_eq_zero.mp h0
  refine ⟨rfl, rfl, ?_, ?_, rfl⟩
  · simp [result_handler_run, hmem]
  · simpa [result_handler_run, hmem] using herase

/-- C4, witness: registration before the call, removal on normal return,
leak on raise, at trampoline 7. -/
theorem C4_amended_registration_lifecycle_witness :
    7 ∈ [7] ∧ List.count 7 [7] = 1 ∧
    ((invoke_method_events [] 7 "Sum" true).2 =
      [.callbackRegistered 7, .nativeInvokeIssued "Sum"] ∧
    (invoke_method_events [] 7 "Sum" true).1 = [] ++ [7] ∧
    result_handler_run [7] 7 false = (List.erase [7] 7, false) ∧
    7 ∉ (result_handler_run [7] 7 false).1 ∧
    result_handler_run [7] 7 true = ([7], true)) :=
  ⟨by decide, by decide,
    C4_amended_registration_lifecycle [] [7] 7 "Sum" (by decide) (by decide)⟩

/-- C5, counterexample: after the first successful call of the unregister /
unsubscribe closure, a second call is not a no-op — `list.remove` raises
`ValueError` on the now-absent trampoline. -/
theorem C5_counterexample_second_call_raises :
    register_endpoint_unregister (register_endpoint_register [] 0) 0 = .ok [] ∧
    register_endpoint_unregister [] 0 = .error "ValueError" ∧
    subscribe_context_unsubscribe (subscribe_context_subscribe [] 1) 1 = .ok [] ∧
    subscribe_context_unsubscribe [] 1 = .error "ValueError" :=
  ⟨rfl, rfl, rfl, rfl⟩

/-- C5, amended: the closures are one-shot, not idempotent: the first call
removes the trampoline, and any further call raises `ValueError` from
`list.remove`. -/
theorem C5_amended_closures_one_shot (l : List CallbackId) (id : CallbackId)
    (hmem : id ∈ l) (hc : l.count id = 1) :
    register_endpoint_unregister l id = .ok (l.erase id) ∧
    register_endpoint_unregister (l.erase id) id = .error "ValueError" ∧
    subscribe_context_unsubscribe (l.erase id) id = .error "ValueError" := by
  have herase : id ∉ l.erase id := by
    have h0 : (l.erase id).count id = 0 := by
      rw [List.count_erase_self]
      omega
    exact List.count_eq_zero.mp h0
  refine ⟨?_, ?_, ?_⟩
  · simp [register_endpoint_unregister, pyListRemove, hmem]
  · simp [register_endpoint_unregister, pyListRemove, herase]
  · simp [subscribe_context_unsubscribe, pyListRemove, herase]

/-- C5, witness: one registered trampoline, unregistered once, then again. -/
theorem C5_amended_closures_one_shot_witness :
    5 ∈ [5] ∧ List.count 5 [5] = 1 ∧
    (register_endpoint_unregister [5] 5 = .ok (List.erase [5] 5) ∧
    register_endpoint_unregister (List.erase [5] 5) 5 = .error "ValueError" ∧
    subscribe_context_unsubscribe (List.erase [5] 5) 5 = .error "ValueError") :=
  ⟨by decide, by decide, C5_amended_closures_one_shot [5] 5 (by decide) (by decide)⟩

/-- C6: with immediate return code 0, any sequence of non-terminal state
callbacks followed by `INITIALIZED` resolves the awaitable to `true` and one
followed by `DISCONNECTED` resolves it to `false`; a non-zero immediate
return code resolves it to `false` with no callback at all; every
non-terminal state is forwarded to `on_state_change` and schedules no
resolution. -/
theorem C6_initialize_glue_semantics (cs : List Int) (m : String) (r : Int)
    (hcs : ∀ s ∈ cs, s ≠ GlueState.INITIALIZED ∧ s ≠ GlueState.DISCONNECTED)
    (hr : r ≠ 0) :
    initialize_glue_result 0 (cs ++ [GlueState.INITIALIZED]) = some true ∧
    initialize_glue_result 0 (cs ++ [GlueState.DISCONNECTED]) = some false ∧
    initialize_glue_result r [] = some false ∧
    (∀ s ∈ cs, glue_init_callback s m = ((s, m), none)) := by
  have hnone : ∀ s ∈ cs, glue_init_callback_resolution s = none := by
    intro s hs
    obtain ⟨h3, h4⟩ := hcs s hs
    have h3' : ¬s = (3 : Int) := by simpa using h3
    have h4' : ¬s = (4 : Int) := by simpa using h4
    simp [glue_init_callback_resolution, h3', h4']
  refine ⟨?_, ?_, ?_, ?_⟩
  · rw [initialize_glue_result, if_neg (by simp)]
    rw [findSome?_append_of_forall_none _ cs _ hnone]
    rfl
  · rw [initialize_glue_result, if_neg (by simp)]
    rw [findSome?_append_of_forall_none _ cs _ hnone]
    rfl
  · rw [initialize_glue_result, if_pos hr]
  · intro s hs
    rw [glue_init_callback, hnone s hs]

/-- C6, witness: `CONNECTING → INITIALIZED` gives `true`,
`CONNECTING → DISCONNECTED` gives `false`, return code 1 gives `false`, and
`CONNECTING` itself is forwarded unresolved. -/
theorem C6_initialize_glue_semantics_witness :
    (∀ s ∈ [GlueState.CONNECTING],
      s ≠ GlueState.INITIALIZED ∧ s ≠ GlueState.DISCONNECTED) ∧ (1 : Int) ≠ 0 ∧
    (initialize_glue_result 0 ([GlueState.CONNECTING] ++ [GlueState.INITIALIZED]) = some true ∧
    initialize_glue_result 0 ([GlueState.CONNECTING] ++ [GlueState.DISCONNECTED]) = some false ∧
    initialize_glue_result 1 [] = some false ∧
    (∀ s ∈ [GlueState.CONNECTING], glue_init_callback s "connecting" = ((s, "connecting"), none))) :=
  ⟨by decide, by decide,
    C6_initialize_glue_semantics [GlueState.CONNECTING] "connecting" 1 (by decide) (by decide)⟩

/-- C7: every falsy host value (`None`, `False`, `0`, `0.0`, `""`, `[]`,
`{}`) encodes to `{kind: glue_none, len: -1}`, and decoding the encoding
yields `None`, not the value itself. -/
theorem C7_falsy_normalizes_to_none (v : PyObj) (h : v.falsy = true) :
    object_to_glue_value v = .mk .unset GlueType.glue_none (-1) ∧
    translate_glue_value (object_to_glue_value v) = some PyObj.none := by
  have henc : object_to_glue_value v = .mk .unset GlueType.glue_none (-1) := by
    cases v <;> simp_all [object_to_glue_value, PyObj.falsy]
  exact ⟨henc, by rw [henc]; rfl⟩

/-- C7, witness: the falsy value `0`. -/
theorem C7_falsy_normalizes_to_none_witness :
    (PyObj.int 0).falsy = true ∧
    (object_to_glue_value (PyObj.int 0) = .mk .unset GlueType.glue_none (-1) ∧
    translate_glue_value (object_to_glue_value (PyObj.int 0)) = some PyObj.none) :=
  ⟨rfl, C7_falsy_normalizes_to_none (PyObj.int 0) rfl⟩

/-- C8: a `glue_composite` wire value with a NULL payload pointer decodes to
the empty dict (never `None`), and a `glue_tuple` wire value with a NULL
payload pointer decodes to `None` (never `[]`), whatever the `len` field. -/
theorem C8_null_composite_empty_dict_null_tuple_none (l1 l2 : Int) :
    translate_glue_value (.mk (.composite Option.none) GlueType.glue_composite l1) =
      some (PyObj.dict []) ∧
    translate_glue_value (.mk (.tup Option.none) GlueType.glue_tuple l2) =
      some PyObj.none :=
  ⟨rfl, rfl⟩

/-- C9, counterexample: it is false that every insertion/removal on the
trampoline stores is under the lock and that a single collection is shared:
`subscribe_context` appends to a second, never-locked list, and most
`active_callbacks` mutations take no lock either. -/
theorem C9_counterexample_unlocked_mutations :
    ¬((∀ s ∈ registry_mutation_sites, s.underLock = true) ∧
      (∀ s ∈ registry_mutation_sites, s.store = RegistryStore.activeCallbacks)) := by
  decide

/-- C9, amended: only `invoke_method`'s insertion and `result_handler`'s
removal of the one-shot result trampoline run under `callback_lock`; every
other mutation of `active_callbacks` is unlocked, and context trampolines
live in a second, never-locked list `context_callback_references`. -/
theorem C9_amended_locking_discipline :
    ((registry_mutation_sites.filter (fun s => s.underLock)).map (fun s => s.fn) =
      ["invoke_method", "invoke_method.result_handler"]) ∧
    (∃ s ∈ registry_mutation_sites,
      s.store = RegistryStore.contextCallbackReferences ∧ s.underLock = false) ∧
    (∃ s ∈ registry_mutation_sites,
      s.store = RegistryStore.activeCallbacks ∧ s.underLock = false) := by
  refine ⟨rfl, ?_, ?_⟩ <;> decide

lemma all_map_bool_isinstBool (bs : List Bool) :
    (bs.map PyObj.bool).all PyObj.isinstBool = true := by
  induction bs with
  | nil => rfl
  | cons b rest ih => simpa using ih

lemma map_toCBool_map_bool (bs : List Bool) :
    (bs.map PyObj.bool).map PyObj.toCBool = bs := by
  induction bs with
  | nil => rfl
  | cons b rest ih => simpa using ih

lemma map_comp_toCBool_bool (bs : List Bool) :
    List.map (PyObj.toCBool ∘ PyObj.bool) bs = bs := by
  induction bs with
  | nil => rfl
  | cons b rest ih => simp [ih]

/-- C10: the encoder tests `bool` before `int`, so `True` encodes as a bool
scalar and an all-bool list as a bool array; but a list mixing booleans and
(at least one non-bool) integers passes the `all(isinstance(x, int))` check —
bool being a subclass of int — and becomes an int64 array with every boolean
coerced to 0/1, its boolean type lost. -/
theorem C10_bool_before_int (bs : List Bool) (hbs : bs ≠ [])
    (xs : List PyObj) (hint : ∀ x ∈ xs, x.isinstInt = true)
    (hsomeint : ∃ x ∈ xs, x.isinstBool = false)
    (hsomebool : ∃ x ∈ xs, x.isinstBool = true) :
    object_to_glue_value (PyObj.bool true) = .mk (.b true) GlueType.glue_bool (-1) ∧
    object_to_glue_value (PyObj.list (bs.map PyObj.bool)) =
      .mk (.bb bs) GlueType.glue_bool (bs.length : Int) ∧
    object_to_glue_value (PyObj.list xs) =
      .mk (.ll (xs.map PyObj.toCLonglong)) GlueType.glue_long (xs.length : Int) ∧
    (∀ b : Bool, PyObj.toCLonglong (PyObj.bool b) = if b then 1 else 0) := by
  obtain ⟨x0, hx0, hx0b⟩ := hsomeint
  have hne2 : xs.isEmpty = false := by
    cases xs with
    | nil => cases hx0
    | cons a rest => rfl
  have hallb : xs.all PyObj.isinstBool = false := by
    cases hall : xs.all PyObj.isinstBool with
    | false => rfl
    | true =>
      have hh := List.all_eq_true.mp hall x0 hx0
      rw [hx0b] at hh
      cases hh
  have hallint : xs.all PyObj.isinstInt = true := List.all_eq_true.mpr hint
  refine ⟨rfl, ?_, ?_, fun b => rfl⟩
  · have hne3 : (bs.map PyObj.bool).isEmpty = false := by
      obtain ⟨b0, bs2, rfl⟩ := List.exists_cons_of_ne_nil hbs
      rfl
    simp [object_to_glue_value, PyObj.falsy, hne3, all_map_bool_isinstBool,
      map_toCBool_map_bool, map_comp_toCBool_bool]
  · simp [object_to_glue_value, PyObj.falsy, hne2, hallb, hallint]

/-- C10, witness: the scalar `True`, the all-bool list `[True, False]`, and
the mixed list `[True, 2]`. -/
theorem C10_bool_before_int_witness :
    ([true, false] : List Bool) ≠ [] ∧
    (∀ x ∈ [PyObj.bool true, PyObj.int 2], x.isinstInt = true) ∧
    (∃ x ∈ [PyObj.bool true, PyObj.int 2], x.isinstBool = false) ∧
    (∃ x ∈ [PyObj.bool true, PyObj.int 2], x.isinstBool = true) ∧
    (object_to_glue_value (PyObj.bool true) = .mk (.b true) GlueType.glue_bool (-1) ∧
    object_to_glue_value (PyObj.list ([true, false].map PyObj.bool)) =
      .mk (.bb [true, false]) GlueType.glue_bool (([true, false] : List Bool).length : Int) ∧
    object_to_glue_value (PyObj.list [PyObj.bool true, PyObj.int 2]) =
      .mk (.ll ([PyObj.bool true, PyObj.int 2].map PyObj.toCLonglong)) GlueType.glue_long
        (([PyObj.bool true, PyObj.int 2] : List PyObj).length : Int) ∧
    (∀ b : Bool, PyObj.toCLonglong (PyObj.bool b) = if b then 1 else 0)) :=
  ⟨by simp, by simp, ⟨PyObj.int 2, by simp⟩, ⟨PyObj.bool true, by simp⟩,
    C10_bool_before_int [true, false] (by simp) [PyObj.bool true, PyObj.int 2]
      (by simp) ⟨PyObj.int 2, by simp⟩ ⟨PyObj.bool true, by simp⟩⟩
